import Mathlib

/-!
Verification of the cryptographic core of the ironfish repository:
`Sapling::load` / `Sapling::load_params` (src/ironfish-rust/src/lib.rs) and
`CreateAssetNote` (src/ironfish-rust/src/proofs/notes/create_asset_note.rs).

The Rust code delegates to the bellman, bls12_381, jubjub and zcash_primitives
crates.  The parts of those dependencies that decide the claims are embedded
here faithfully:

* `groth16::Parameters::<Bls12>::read(bytes, checked)` together with
  `VerifyingKey::read` and the point deserializers
  `from_uncompressed` / `from_uncompressed_unchecked` of the bls12_381 crate
  (uncompressed big-endian encodings with three flag bits, curve membership
  `y^2 = x^3 + 4` resp. `y^2 = x^3 + (4 + 4i)`, subgroup membership defined as
  multiplication by the BLS12-381 scalar-field order giving the identity).
  Byte strings are `List Nat` (each entry one byte), `io::Result` failure and
  `unwrap` panics are modelled as `Option.none`.
* `jubjub::Fr::from_bytes_wide` (reduction of a 512-bit little-endian integer
  modulo the Jubjub scalar-field order).
* The Jubjub prime-order subgroup arithmetic used by `commitment_full_point`
  is kept parametric: an ambient additive commutative group (the model of
  `jubjub::ExtendedPoint`), an `AddSubgroup` of it (the model of
  `jubjub::SubgroupPoint`, whose invariant the jubjub crate maintains by
  construction), a Pedersen-hash function into the subgroup, the fixed
  randomness generator, and the extended-to-affine conversion.  The theorems
  quantify over these, so they hold for the actual instantiation.

The quantities modelled from code that is neither in src/ nor in a published
dependency are marked `Modelled from the spec:` in their doc comments.
-/

/-- Base-field modulus `p` of BLS12-381 (the bls12_381 crate's `Fp`). -/
def pBLS : Nat := 4002409555221667393417789825735904156556882819939007885332058136124031650490837864442687629129015664037894272559787

/-- Scalar-field modulus `r` of BLS12-381: the order of the G1/G2 subgroups and
the modulus of `bls12_381::Scalar` (the base field of Jubjub). -/
def rBLS : Nat := 52435875175126190479447740508185965837690552500527637822603658699938581184513

/-- Order `q` of the Jubjub prime-order subgroup: the modulus of `jubjub::Fr`. -/
def qJ : Nat := 6554484396890773809930967563523245729705921265872317281365359162392183254199

/-- The BLS12-381 base field `Fp`. -/
abbrev Fp : Type := ZMod pBLS

/-- The BLS12-381 scalar field, `bls12_381::Scalar`. -/
abbrev Scalar : Type := ZMod rBLS

/-- The Jubjub scalar field, `jubjub::Fr`. -/
abbrev Fr : Type := ZMod qJ

/-- The quadratic extension `Fp2 = Fp[i]/(i^2 + 1)` used by G2 (bls12_381's `Fp2`). -/
structure Fp2 where
  c0 : Fp
  c1 : Fp
deriving DecidableEq

instance : Zero Fp2 := ⟨⟨0, 0⟩⟩

instance : One Fp2 := ⟨⟨1, 0⟩⟩

instance : Add Fp2 := ⟨fun a b => ⟨a.c0 + b.c0, a.c1 + b.c1⟩⟩

instance : Neg Fp2 := ⟨fun a => ⟨-a.c0, -a.c1⟩⟩

instance : Sub Fp2 := ⟨fun a b => ⟨a.c0 - b.c0, a.c1 - b.c1⟩⟩

instance : Mul Fp2 := ⟨fun a b => ⟨a.c0 * b.c0 - a.c1 * b.c1, a.c0 * b.c1 + a.c1 * b.c0⟩⟩

/-- Inverse in `Fp2`: the conjugate divided by the norm. -/
def Fp2.inv (a : Fp2) : Fp2 :=
  let n : Fp := (a.c0 * a.c0 + a.c1 * a.c1)⁻¹
  ⟨a.c0 * n, -a.c1 * n⟩

instance : Inv Fp2 := ⟨Fp2.inv⟩

/-- Affine G1 point of BLS12-381 as the bls12_381 crate represents it:
coordinates plus an `infinity` flag. -/
structure G1Affine where
  x : Fp
  y : Fp
  infinity : Bool
deriving DecidableEq

/-- The G1 identity, `G1Affine::identity()` (represented as `(0, 1)` with the
infinity flag set, as in the crate). -/
def g1Id : G1Affine := ⟨0, 1, true⟩

/-- Affine G2 point of BLS12-381. -/
structure G2Affine where
  x : Fp2
  y : Fp2
  infinity : Bool
deriving DecidableEq

/-- The G2 identity. -/
def g2Id : G2Affine := ⟨0, 1, true⟩

/-- Chord-and-tangent doubling on G1 (identity and two-torsion handled explicitly). -/
def g1Double (P : G1Affine) : G1Affine :=
  if P.infinity then g1Id
  else if P.y = 0 then g1Id
  else
    let l : Fp := (3 * P.x * P.x) * (2 * P.y)⁻¹
    let x3 : Fp := l * l - 2 * P.x
    ⟨x3, l * (P.x - x3) - P.y, false⟩

/-- Chord-and-tangent addition on G1. -/
def g1Add (P Q : G1Affine) : G1Affine :=
  if P.infinity then Q
  else if Q.infinity then P
  else if P.x = Q.x then
    (if P.y = -Q.y then g1Id else g1Double P)
  else
    let l : Fp := (Q.y - P.y) * (Q.x - P.x)⁻¹
    let x3 : Fp := l * l - P.x - Q.x
    ⟨x3, l * (P.x - x3) - P.y, false⟩

/-- Binary double-and-add scalar multiplication on G1, structurally recursive on
a fuel bound (256 suffices for scalars below `2 ^ 256`). -/
def g1MulFuel : Nat → Nat → G1Affine → G1Affine
  | 0, _, _ => g1Id
  | fuel + 1, k, P =>
    if k = 0 then g1Id
    else
      let r := g1MulFuel fuel (k / 2) (g1Double P)
      if k % 2 = 1 then g1Add P r else r

/-- Doubling on G2. -/
def g2Double (P : G2Affine) : G2Affine :=
  if P.infinity then g2Id
  else if P.y = 0 then g2Id
  else
    let three : Fp2 := ⟨3, 0⟩
    let two : Fp2 := ⟨2, 0⟩
    let l : Fp2 := (three * P.x * P.x) * (two * P.y)⁻¹
    let x3 : Fp2 := l * l - two * P.x
    ⟨x3, l * (P.x - x3) - P.y, false⟩

/-- Addition on G2. -/
def g2Add (P Q : G2Affine) : G2Affine :=
  if P.infinity then Q
  else if Q.infinity then P
  else if P.x = Q.x then
    (if P.y = -Q.y then g2Id else g2Double P)
  else
    let l : Fp2 := (Q.y - P.y) * (Q.x - P.x)⁻¹
    let x3 : Fp2 := l * l - P.x - Q.x
    ⟨x3, l * (P.x - x3) - P.y, false⟩

/-- Binary double-and-add scalar multiplication on G2. -/
def g2MulFuel : Nat → Nat → G2Affine → G2Affine
  | 0, _, _ => g2Id
  | fuel + 1, k, P =>
    if k = 0 then g2Id
    else
      let r := g2MulFuel fuel (k / 2) (g2Double P)
      if k % 2 = 1 then g2Add P r else r

/-- Curve membership test of `bls12_381::G1Affine::is_on_curve`:
`y^2 - x^3 = 4`, or the point at infinity. -/
def g1OnCurve (P : G1Affine) : Bool :=
  P.infinity || decide (P.y * P.y = P.x * P.x * P.x + 4)

/-- The G2 curve constant `B2 = 4 (1 + i)`. -/
def g2B : Fp2 := ⟨4, 4⟩

/-- Curve membership test of `bls12_381::G2Affine::is_on_curve`. -/
def g2OnCurve (P : G2Affine) : Bool :=
  P.infinity || decide (P.y * P.y = P.x * P.x * P.x + g2B)

/-- Subgroup membership test of `bls12_381::G1Affine::is_torsion_free`:
multiplying by the scalar-field order `r` must give the identity. -/
def g1InSubgroup (P : G1Affine) : Bool :=
  (g1MulFuel 256 rBLS P).infinity

/-- Subgroup membership test of `bls12_381::G2Affine::is_torsion_free`. -/
def g2InSubgroup (P : G2Affine) : Bool :=
  (g2MulFuel 256 rBLS P).infinity

/-- Big-endian interpretation of a byte string as a natural number. -/
def beNat (bs : List Nat) : Nat := bs.foldl (fun acc b => acc * 256 + b) 0

/-- Little-endian interpretation of a byte string as a natural number. -/
def leNat (bs : List Nat) : Nat := bs.foldr (fun b acc => b + acc * 256) 0

/-- Field-element deserialization `bls12_381::Fp::from_bytes`: 48 big-endian
bytes, rejected unless the value is below the modulus. -/
def fpFromBytes (bs : List Nat) : Option Fp :=
  if beNat bs < pBLS then some ((beNat bs : Nat) : Fp) else none

/-- Point deserialization `bls12_381::G1Affine::from_uncompressed_unchecked`:
96 bytes, three flag bits in the top bits of the first byte, `x` then `y` in
big-endian order.  No curve or subgroup check is performed. -/
def g1FromUncompressedUnchecked (bs : List Nat) : Option G1Affine :=
  let b0 := bs.headD 0
  let compressionFlag := b0.testBit 7
  let infinityFlag := b0.testBit 6
  let sortFlag := b0.testBit 5
  let xbytes := (b0 % 32) :: ((bs.drop 1).take 47)
  let ybytes := (bs.drop 48).take 48
  (fpFromBytes xbytes).bind fun x =>
    (fpFromBytes ybytes).bind fun y =>
      if compressionFlag || sortFlag then none
      else if infinityFlag then
        (if x = 0 ∧ y = 0 then some g1Id else none)
      else some ⟨x, y, false⟩

/-- Point deserialization `bls12_381::G1Affine::from_uncompressed`: the
unchecked decoding followed by the curve and subgroup checks. -/
def g1FromUncompressed (bs : List Nat) : Option G1Affine :=
  (g1FromUncompressedUnchecked bs).bind fun P =>
    if g1OnCurve P && g1InSubgroup P then some P else none

/-- Point deserialization `bls12_381::G2Affine::from_uncompressed_unchecked`:
192 bytes, in the order `x.c1`, `x.c0`, `y.c1`, `y.c0` (flags in the first
byte of `x.c1`). -/
def g2FromUncompressedUnchecked (bs : List Nat) : Option G2Affine :=
  let b0 := bs.headD 0
  let compressionFlag := b0.testBit 7
  let infinityFlag := b0.testBit 6
  let sortFlag := b0.testBit 5
  let xc1bytes := (b0 % 32) :: ((bs.drop 1).take 47)
  let xc0bytes := (bs.drop 48).take 48
  let yc1bytes := (bs.drop 96).take 48
  let yc0bytes := (bs.drop 144).take 48
  (fpFromBytes xc1bytes).bind fun xc1 =>
    (fpFromBytes xc0bytes).bind fun xc0 =>
      (fpFromBytes yc1bytes).bind fun yc1 =>
        (fpFromBytes yc0bytes).bind fun yc0 =>
          let x : Fp2 := ⟨xc0, xc1⟩
          let y : Fp2 := ⟨yc0, yc1⟩
          if compressionFlag || sortFlag then none
          else if infinityFlag then
            (if x = 0 ∧ y = 0 then some g2Id else none)
          else some ⟨x, y, false⟩

/-- Point deserialization `bls12_381::G2Affine::from_uncompressed`. -/
def g2FromUncompressed (bs : List Nat) : Option G2Affine :=
  (g2FromUncompressedUnchecked bs).bind fun P =>
    if g2OnCurve P && g2InSubgroup P then some P else none

/-- Negation of a G2 point as the bls12_381 crate implements it: the identity
keeps its `(0, 1)` representative, any other point negates `y`. -/
def g2Neg (P : G2Affine) : G2Affine :=
  ⟨P.x, if P.infinity then 1 else -P.y, P.infinity⟩

/-- The model of `std::io::Read::read_exact` on an in-memory byte slice:
consume exactly `n` bytes, failing if fewer are available. -/
def readExact (n : Nat) (bs : List Nat) : Option (List Nat × List Nat) :=
  if n ≤ bs.length then some (bs.take n, bs.drop n) else none

/-- A checked G1 read of bellman's `VerifyingKey::read` /
`read_uncompressed_point`: 96 bytes through `from_uncompressed` (no identity
rejection). -/
def readG1Vk (bs : List Nat) : Option (G1Affine × List Nat) :=
  (readExact 96 bs).bind fun p =>
    (g1FromUncompressed p.1).bind fun P => some (P, p.2)

/-- A checked G2 read of bellman's `VerifyingKey::read`. -/
def readG2Vk (bs : List Nat) : Option (G2Affine × List Nat) :=
  (readExact 192 bs).bind fun p =>
    (g2FromUncompressed p.1).bind fun P => some (P, p.2)

/-- The `read_g1` closure of bellman's `Parameters::read` (also the `ic` reads
of `VerifyingKey::read`, with `checked = true`): decode with or without the
curve/subgroup validation according to `checked`, then reject the point at
infinity. -/
def readG1Elem (checked : Bool) (bs : List Nat) : Option (G1Affine × List Nat) :=
  (readExact 96 bs).bind fun p =>
    ((if checked then g1FromUncompressed p.1 else g1FromUncompressedUnchecked p.1)).bind
      fun P => if P.infinity then none else some (P, p.2)

/-- The `read_g2` closure of bellman's `Parameters::read`. -/
def readG2Elem (checked : Bool) (bs : List Nat) : Option (G2Affine × List Nat) :=
  (readExact 192 bs).bind fun p =>
    ((if checked then g2FromUncompressed p.1 else g2FromUncompressedUnchecked p.1)).bind
      fun P => if P.infinity then none else some (P, p.2)

/-- A big-endian `u32` length prefix. -/
def readU32BE (bs : List Nat) : Option (Nat × List Nat) :=
  (readExact 4 bs).bind fun p => some (beNat p.1, p.2)

/-- Read `n` consecutive elements with the element reader `rd`. -/
def readVec {α : Type} (rd : List Nat → Option (α × List Nat)) :
    Nat → List Nat → Option (List α × List Nat)
  | 0, bs => some ([], bs)
  | n + 1, bs =>
    (rd bs).bind fun p =>
      (readVec rd n p.2).bind fun q => some (p.1 :: q.1, q.2)

namespace Groth16

/-- The groth16 verification key `bellman::groth16::VerifyingKey<Bls12>`. -/
structure VerifyingKey where
  alpha_g1 : G1Affine
  beta_g1 : G1Affine
  beta_g2 : G2Affine
  gamma_g2 : G2Affine
  delta_g1 : G1Affine
  delta_g2 : G2Affine
  ic : List G1Affine
deriving DecidableEq

/-- Deserialization `bellman::groth16::VerifyingKey::read`: six fixed group
elements (always validated on-curve and in-subgroup), then the length-prefixed
`ic` vector whose entries additionally must not be the identity. -/
def VerifyingKey.read (bs : List Nat) : Option (VerifyingKey × List Nat) :=
  (readG1Vk bs).bind fun alpha =>
    (readG1Vk alpha.2).bind fun beta1 =>
      (readG2Vk beta1.2).bind fun beta2 =>
        (readG2Vk beta2.2).bind fun gamma =>
          (readG1Vk gamma.2).bind fun delta1 =>
            (readG2Vk delta1.2).bind fun delta2 =>
              (readU32BE delta2.2).bind fun icLen =>
                (readVec (readG1Elem true) icLen.1 icLen.2).bind fun ic =>
                  some (⟨alpha.1, beta1.1, beta2.1, gamma.1, delta1.1, delta2.1, ic.1⟩, ic.2)

/-- The groth16 proving parameters `bellman::groth16::Parameters<Bls12>`. -/
structure Parameters where
  vk : VerifyingKey
  h : List G1Affine
  l : List G1Affine
  a : List G1Affine
  b_g1 : List G1Affine
  b_g2 : List G2Affine
deriving DecidableEq

/-- Deserialization `bellman::groth16::Parameters::read(reader, checked)`: the
verifying key (always checked) followed by the five length-prefixed tables
`h`, `l`, `a`, `b_g1`, `b_g2`, whose points are validated on-curve and
in-subgroup only when `checked` is true (identity points are always rejected).
Trailing bytes are ignored, as by the Rust reader. -/
def Parameters.read (checked : Bool) (bs : List Nat) : Option Parameters :=
  (VerifyingKey.read bs).bind fun vk =>
    (readU32BE vk.2).bind fun hLen =>
      (readVec (readG1Elem checked) hLen.1 hLen.2).bind fun h =>
        (readU32BE h.2).bind fun lLen =>
          (readVec (readG1Elem checked) lLen.1 lLen.2).bind fun l =>
            (readU32BE l.2).bind fun aLen =>
              (readVec (readG1Elem checked) aLen.1 aLen.2).bind fun a =>
                (readU32BE a.2).bind fun bg1Len =>
                  (readVec (readG1Elem checked) bg1Len.1 bg1Len.2).bind fun bg1 =>
                    (readU32BE bg1.2).bind fun bg2Len =>
                      (readVec (readG2Elem checked) bg2Len.1 bg2Len.2).bind fun bg2 =>
                        some ⟨vk.1, h.1, l.1, a.1, bg1.1, bg2.1⟩

/-- The prepared verification key `bellman::groth16::PreparedVerifyingKey<Bls12>`.
The target group `Gt` of the pairing and the Miller-loop precomputation type
`G2Prepared` live outside the repository; the structure is parametric in them. -/
structure PreparedVerifyingKey (Gt G2P : Type) where
  alpha_g1_beta_g2 : Gt
  neg_gamma_g2 : G2P
  neg_delta_g2 : G2P
  ic : List G1Affine
deriving DecidableEq

end Groth16

/-- The pure derivation `bellman::groth16::prepare_verifying_key`, parametric
in the pairing and in the `G2Prepared` precomputation: pair `alpha_g1` with
`beta_g2`, negate and prepare `gamma_g2` and `delta_g2`, copy `ic`.  No secret
material enters: the input is only the verification key. -/
def prepare_verifying_key {Gt G2P : Type} (pairing : G1Affine → G2Affine → Gt)
    (g2Prepare : G2Affine → G2P) (vk : Groth16.VerifyingKey) :
    Groth16.PreparedVerifyingKey Gt G2P :=
  ⟨pairing vk.alpha_g1 vk.beta_g2, g2Prepare (g2Neg vk.gamma_g2),
    g2Prepare (g2Neg vk.delta_g2), vk.ic⟩

/-- The `Sapling` struct of src/ironfish-rust/src/lib.rs, parametric in the
pairing target and `G2Prepared` types of the prepared keys. -/
structure Sapling (Gt G2P : Type) where
  spend_params : Groth16.Parameters
  receipt_params : Groth16.Parameters
  create_asset_params : Groth16.Parameters
  mint_asset_params : Groth16.Parameters
  spend_verifying_key : Groth16.PreparedVerifyingKey Gt G2P
  receipt_verifying_key : Groth16.PreparedVerifyingKey Gt G2P
  create_asset_verifying_key : Groth16.PreparedVerifyingKey Gt G2P
  mint_asset_verifying_key : Groth16.PreparedVerifyingKey Gt G2P
deriving DecidableEq

/-- The function `Sapling::load_params` of src/ironfish-rust/src/lib.rs:
`groth16::Parameters::read(bytes, false)` — note the unchecked flag — with the
`unwrap` panic modelled as `none`. -/
def Sapling.load_params (bytes : List Nat) : Option Groth16.Parameters :=
  Groth16.Parameters.read false bytes

/-- The constructor `Sapling::load` of src/ironfish-rust/src/lib.rs.  The four
embedded parameter blobs are build-time resources not contained in src/, so
they are inputs here; the pairing and `G2Prepared` precomputation of the
bellman dependency are parameters.  Each blob is deserialized by
`load_params` (a failure panics, modelled by `none`), then each prepared
verifying key is derived from the verification key embedded in that same
circuit's parameters. -/
def Sapling.load {Gt G2P : Type} (pairing : G1Affine → G2Affine → Gt)
    (g2Prepare : G2Affine → G2P)
    (spend_bytes receipt_bytes create_asset_bytes mint_asset_bytes : List Nat) :
    Option (Sapling Gt G2P) :=
  (Sapling.load_params spend_bytes).bind fun spend_params =>
    (Sapling.load_params receipt_bytes).bind fun receipt_params =>
      (Sapling.load_params create_asset_bytes).bind fun create_asset_params =>
        (Sapling.load_params mint_asset_bytes).bind fun mint_asset_params =>
          some
            { spend_params := spend_params
              receipt_params := receipt_params
              create_asset_params := create_asset_params
              mint_asset_params := mint_asset_params
              spend_verifying_key :=
                prepare_verifying_key pairing g2Prepare spend_params.vk
              receipt_verifying_key :=
                prepare_verifying_key pairing g2Prepare receipt_params.vk
              create_asset_verifying_key :=
                prepare_verifying_key pairing g2Prepare create_asset_params.vk
              mint_asset_verifying_key :=
                prepare_verifying_key pairing g2Prepare mint_asset_params.vk }

/-- Jubjub affine point `jubjub::AffinePoint`, with its `u` and `v`
coordinates over the BLS12-381 scalar field. -/
structure AffinePoint where
  u : Scalar
  v : Scalar

/-- The accessor `jubjub::AffinePoint::get_u`. -/
def AffinePoint.get_u (p : AffinePoint) : Scalar := p.u

/-- The personalization tags of `zcash_primitives::sapling::pedersen_hash`. -/
inductive Personalization where
  | NoteCommitment : Personalization
  | MerkleTree : Nat → Personalization

/-- The 64-byte constant `zcash_primitives::constants::GH_FIRST_BLOCK` (the
ASCII hex digest of the Bitcoin genesis block, used as a domain-separation
prefix in note-commitment preimages). -/
def GH_FIRST_BLOCK : List Nat :=
  [48, 57, 54, 98, 51, 54, 97, 53, 56, 48, 52, 98, 102, 97, 99, 101,
   102, 49, 54, 57, 49, 101, 49, 55, 51, 99, 51, 54, 54, 97, 52, 55,
   102, 102, 53, 98, 97, 56, 52, 97, 52, 52, 102, 50, 54, 100, 100, 100,
   55, 101, 56, 100, 57, 102, 55, 57, 100, 53, 98, 52, 50, 100, 102, 48]

/-- Modelled from the spec: `AssetInfo` lives in
`crate::primitives::asset_type`, which is not among the provided sources.  The
spec describes it as an asset name (a byte string), an owner public address (a
fixed-size byte sequence, 32 bytes in the spec's fixture), and a single nonce
byte; `commitment_full_point` only uses the three accessors modelled here as
fields. -/
structure AssetInfo where
  name : List Nat
  public_address_bytes : List Nat
  nonce : Nat
deriving DecidableEq

/-- The `CreateAssetNote` struct of
src/ironfish-rust/src/proofs/notes/create_asset_note.rs. -/
structure CreateAssetNote where
  asset_info : AssetInfo
  randomness : Fr
deriving DecidableEq

/-- The scalar deserialization `jubjub::Fr::from_bytes_wide`: a 64-byte buffer
interpreted as a 512-bit little-endian integer and reduced modulo the order of
the Jubjub scalar field. -/
def Fr.from_bytes_wide (bs : List Nat) : Fr :=
  ((leNat bs : Nat) : Fr)

/-- The constructor `CreateAssetNote::new`.  The thread RNG is modelled as an
explicit stream of bytes: `thread_rng().fill(&mut buffer)` for a 64-byte
buffer takes the first 64 bytes of the stream.  The blinding scalar is the
wide reduction of that buffer; the metadata is stored unchanged. -/
def CreateAssetNote.new (asset_info : AssetInfo) (rng : Nat → Nat) : CreateAssetNote :=
  let buffer : List Nat := (List.range 64).map fun i => rng i % 256
  let randomness : Fr := Fr.from_bytes_wide buffer
  { asset_info := asset_info, randomness := randomness }

/-- The commitment preimage built in `commitment_full_point`:
`GH_FIRST_BLOCK`, then the asset name bytes, then the owner address bytes,
then the single nonce byte (the four `Vec::extend` calls of the source). -/
def create_commitment_plaintext (info : AssetInfo) : List Nat :=
  GH_FIRST_BLOCK ++ info.name ++ info.public_address_bytes ++ [info.nonce]

/-- The bit expansion applied to the preimage in `commitment_full_point`:
`flat_map(|byte| (0..8).map(move |i| ((byte >> i) & 1) == 1))`. -/
def commitment_bits (info : AssetInfo) : List Bool :=
  (create_commitment_plaintext info).flatMap fun byte =>
    (List.range 8).map fun i => ((byte >>> i) &&& 1) == 1

/-- The method `CreateAssetNote::commitment_full_point`, parametric in the
model of the Jubjub prime-order subgroup: `JubjubExt` models
`jubjub::ExtendedPoint`, the subgroup `S` models the set of points underlying
`jubjub::SubgroupPoint`, `pedersen_hash` models the personalized Pedersen hash
of zcash_primitives (whose output is a subgroup point by construction), and
`gen` models `NOTE_COMMITMENT_RANDOMNESS_GENERATOR`.  Multiplication of a
point by a `jubjub::Fr` scalar is `nsmul` by the scalar's canonical natural
representative. -/
def CreateAssetNote.commitment_full_point {JubjubExt : Type} [AddCommGroup JubjubExt]
    (S : AddSubgroup JubjubExt)
    (pedersen_hash : Personalization → List Bool → S) (gen : S)
    (note : CreateAssetNote) : S :=
  pedersen_hash Personalization.NoteCommitment (commitment_bits note.asset_info) +
    note.randomness.val • gen

/-- The method `CreateAssetNote::commitment_point`: convert the full
commitment point to the ambient extended model (`jubjub::ExtendedPoint::from`,
here the subgroup inclusion), convert to affine coordinates (`to_affine`,
parametric: it lives in the jubjub crate), and keep the `u` coordinate
(`get_u`). -/
def CreateAssetNote.commitment_point {JubjubExt : Type} [AddCommGroup JubjubExt]
    (S : AddSubgroup JubjubExt)
    (pedersen_hash : Personalization → List Bool → S) (gen : S)
    (to_affine : JubjubExt → AffinePoint)
    (note : CreateAssetNote) : Scalar :=
  (to_affine (CreateAssetNote.commitment_full_point S pedersen_hash gen note : JubjubExt)).get_u

/-- Least-significant-bit-first unpacking of one byte, stated independently of
the source's shift-and-mask loop (used to characterize `commitment_bits`). -/
def byteBitsLSB (b : Nat) : List Bool :=
  [b.testBit 0, b.testBit 1, b.testBit 2, b.testBit 3,
   b.testBit 4, b.testBit 5, b.testBit 6, b.testBit 7]

/-- The 96-byte uncompressed encoding of the G1 identity: infinity flag set,
all coordinate bytes zero. -/
def idG1Bytes : List Nat := 64 :: List.replicate 95 0

/-- The 192-byte uncompressed encoding of the G2 identity. -/
def idG2Bytes : List Nat := 64 :: List.replicate 191 0

/-- A zero big-endian `u32` length prefix. -/
def zeros4 : List Nat := [0, 0, 0, 0]

/-- A verifying-key section whose six fixed points are all the identity (the
checked reads accept the identity there: bellman rejects it only in the `ic`
and table vectors) and whose `ic` vector is empty. -/
def goodVkBytes : List Nat :=
  idG1Bytes ++ idG1Bytes ++ idG2Bytes ++ idG2Bytes ++ idG1Bytes ++ idG2Bytes ++ zeros4

/-- A complete 888-byte parameter blob that `Parameters::read` accepts: the
all-identity verifying key followed by five empty tables. -/
def goodBlob : List Nat := goodVkBytes ++ zeros4 ++ zeros4 ++ zeros4 ++ zeros4 ++ zeros4

/-- The uncompressed encoding of the affine pair `(1, 1)`: flags clear, `x = 1`,
`y = 1`.  This point is not on the BLS12-381 curve (`1 ≠ 1 + 4`). -/
def badPointBytes : List Nat :=
  (List.replicate 47 0 ++ [1]) ++ (List.replicate 47 0 ++ [1])

/-- A 984-byte parameter blob whose `h` table contains the off-curve point
`(1, 1)` and is otherwise well-formed. -/
def badBlob : List Nat :=
  goodVkBytes ++ [0, 0, 0, 1] ++ badPointBytes ++ zeros4 ++ zeros4 ++ zeros4 ++ zeros4

/-- The decoded form of `badPointBytes`: the affine pair `(1, 1)`. -/
def badPointG1 : G1Affine := ⟨1, 1, false⟩

/-- The all-identity verifying key encoded in `goodVkBytes`. -/
def idVk : Groth16.VerifyingKey := ⟨g1Id, g1Id, g2Id, g2Id, g1Id, g2Id, []⟩

/-- The parameter object that `load_params` produces from `badBlob`. -/
def badParameters : Groth16.Parameters := ⟨idVk, [badPointG1], [], [], [], []⟩

/-- The parameter object that `load_params` produces from `goodBlob`. -/
def goodParameters : Groth16.Parameters := ⟨idVk, [], [], [], [], []⟩

/-- A concrete pairing instantiation used in witnesses. -/
def pairing0 : G1Affine → G2Affine → Nat := fun _ _ => 0

/-- A concrete `G2Prepared` instantiation used in witnesses. -/
def g2Prepare0 : G2Affine → G2Affine := fun P => P

/-- The prepared verifying key of `idVk` under the witness instantiation. -/
def goodPvk : Groth16.PreparedVerifyingKey Nat G2Affine :=
  prepare_verifying_key pairing0 g2Prepare0 idVk

/-- The `Sapling` value `load` produces from four copies of `goodBlob` under
the witness instantiation. -/
def goodSapling : Sapling Nat G2Affine :=
  ⟨goodParameters, goodParameters, goodParameters, goodParameters,
   goodPvk, goodPvk, goodPvk, goodPvk⟩

/-- A concrete ambient-group instantiation for the Jubjub-side witnesses: the
additive group of the Jubjub scalar field, with the full subgroup (every
element of `Fr` is killed by `qJ`, so the prime-order hypothesis holds). -/
def Sfull : AddSubgroup Fr := ⊤

/-- A concrete Pedersen-hash instantiation used in witnesses. -/
def ph0 : Personalization → List Bool → Sfull := fun _ _ => 0

/-- A concrete randomness-generator instantiation used in witnesses. -/
def gen0 : Sfull := ⟨1, AddSubgroup.mem_top 1⟩

/-- A concrete extended-to-affine conversion used in witnesses. -/
def toAffine0 : Fr → AffinePoint := fun x => ⟨(x.val : Scalar), 0⟩

/-- A concrete note used in witnesses. -/
def note0 : CreateAssetNote := ⟨⟨[], List.replicate 32 0, 1⟩, 7⟩

/-- Concrete asset metadata: empty name, 32-byte zero address, nonce 0. -/
def assetA : AssetInfo := ⟨[], List.replicate 32 0, 0⟩

/-- Concrete asset metadata differing from `assetA` only in the nonce. -/
def assetB : AssetInfo := ⟨[], List.replicate 32 0, 1⟩

/-- The 864-byte fixed part of the verifying-key section: the six identity
points without the `ic` length prefix. -/
def vkFixedBytes : List Nat :=
  idG1Bytes ++ idG1Bytes ++ idG2Bytes ++ idG2Bytes ++ idG1Bytes ++ idG2Bytes

/-- The uncompressed encoding of the G2 affine pair `(1, 1)` (both `Fp2`
components real): flags clear, `x.c1 = 0`, `x.c0 = 1`, `y.c1 = 0`,
`y.c0 = 1`.  This point is not on the G2 curve. -/
def badG2PointBytes : List Nat :=
  List.replicate 48 0 ++ (List.replicate 47 0 ++ [1]) ++
    List.replicate 48 0 ++ (List.replicate 47 0 ++ [1])

/-- The decoded form of `badG2PointBytes`. -/
def badPointG2 : G2Affine := ⟨⟨1, 0⟩, ⟨1, 0⟩, false⟩

/-- A blob whose `delta_g2` slot (byte offset 672 of the verifying-key
section) holds the off-curve G2 point `(1, 1)`. -/
def badDelta2Blob : List Nat :=
  idG1Bytes ++ idG1Bytes ++ idG2Bytes ++ idG2Bytes ++ idG1Bytes ++ badG2PointBytes

/-- A blob whose verifying-key `ic` vector has length one and whose single
entry is the off-curve G1 point `(1, 1)`. -/
def badIcBlob : List Nat := vkFixedBytes ++ [0, 0, 0, 1] ++ badPointBytes

/-- Specification of a well-behaved byte reader: every successful run factors
the input into a consumed prefix `c` and the returned leftover; the reader is
determined by `c` (running it on `c` followed by any tail succeeds with the
same value and that tail as leftover); and it fails on every strict prefix of
`c`.  All the readers of the bellman deserialization pipeline satisfy it. -/
def ReaderSpec {α : Type} (reader : List Nat → Option (α × List Nat)) : Prop :=
  ∀ bs a rest, reader bs = some (a, rest) →
    ∃ c, bs = c ++ rest ∧
      (∀ tail, reader (c ++ tail) = some (a, tail)) ∧
      (∀ k, k < c.length → reader (c.take k) = none)

/-- The analogue of `ReaderSpec` for a deserializer that discards the
leftover, such as `Parameters::read`. -/
def SinkSpec {α : Type} (reader : List Nat → Option α) : Prop :=
  ∀ bs a, reader bs = some a →
    ∃ c rest, bs = c ++ rest ∧
      (∀ tail, reader (c ++ tail) = some a) ∧
      (∀ k, k < c.length → reader (c.take k) = none)

theorem obind_const_none {α β : Type} (o : Option α) :
    (o.bind fun _ => (none : Option β)) = none := by
  cases o <;> rfl

theorem readExact_length {n : Nat} {bs : List Nat} {p : List Nat × List Nat}
    (h : readExact n bs = some p) : bs.length = n + p.2.length := by
  rw [readExact] at h
  split at h
  · cases h
    simp only [List.length_drop]
    omega
  · cases h

theorem readG1Vk_length {bs : List Nat} {p : G1Affine × List Nat}
    (h : readG1Vk bs = some p) : bs.length = 96 + p.2.length := by
  rw [readG1Vk] at h
  rw [Option.bind_eq_some] at h
  obtain ⟨q, hq, h⟩ := h
  rw [Option.bind_eq_some] at h
  obtain ⟨P, _, h⟩ := h
  cases h
  exact readExact_length hq

theorem readG2Vk_length {bs : List Nat} {p : G2Affine × List Nat}
    (h : readG2Vk bs = some p) : bs.length = 192 + p.2.length := by
  rw [readG2Vk] at h
  rw [Option.bind_eq_some] at h
  obtain ⟨q, hq, h⟩ := h
  rw [Option.bind_eq_some] at h
  obtain ⟨P, _, h⟩ := h
  cases h
  exact readExact_length hq

theorem readU32BE_length {bs : List Nat} {p : Nat × List Nat}
    (h : readU32BE bs = some p) : bs.length = 4 + p.2.length := by
  rw [readU32BE] at h
  rw [Option.bind_eq_some] at h
  obtain ⟨q, hq, h⟩ := h
  cases h
  exact readExact_length hq

theorem readG1Elem_length {checked : Bool} {bs : List Nat} {p : G1Affine × List Nat}
    (h : readG1Elem checked bs = some p) : bs.length = 96 + p.2.length := by
  rw [readG1Elem] at h
  rw [Option.bind_eq_some] at h
  obtain ⟨q, hq, h⟩ := h
  rw [Option.bind_eq_some] at h
  obtain ⟨P, _, h⟩ := h
  split at h
  · cases h
  · cases h
    exact readExact_length hq

theorem readG2Elem_length {checked : Bool} {bs : List Nat} {p : G2Affine × List Nat}
    (h : readG2Elem checked bs = some p) : bs.length = 192 + p.2.length := by
  rw [readG2Elem] at h
  rw [Option.bind_eq_some] at h
  obtain ⟨q, hq, h⟩ := h
  rw [Option.bind_eq_some] at h
  obtain ⟨P, _, h⟩ := h
  split at h
  · cases h
  · cases h
    exact readExact_length hq

theorem readVec_length {α : Type} {rd : List Nat → Option (α × List Nat)}
    (hrd : ∀ bs q, rd bs = some q → q.2.length ≤ bs.length) :
    ∀ (n : Nat) (bs : List Nat) (p : List α × List Nat),
      readVec rd n bs = some p → p.2.length ≤ bs.length := by
  intro n
  induction n with
  | zero =>
    intro bs p h
    rw [readVec] at h
    cases h
    exact Nat.le_refl _
  | succ n ih =>
    intro bs p h
    rw [readVec] at h
    rw [Option.bind_eq_some] at h
    obtain ⟨q, hq, h⟩ := h
    rw [Option.bind_eq_some] at h
    obtain ⟨q2, hq2, h⟩ := h
    cases h
    calc q2.2.length ≤ q.2.length := ih q.2 q2 hq2
    _ ≤ bs.length := hrd bs q hq

theorem vkRead_length {bs : List Nat} {p : Groth16.VerifyingKey × List Nat}
    (h : Groth16.VerifyingKey.read bs = some p) : 868 + p.2.length ≤ bs.length := by
  rw [Groth16.VerifyingKey.read] at h
  rw [Option.bind_eq_some] at h
  obtain ⟨alpha, halpha, h⟩ := h
  rw [Option.bind_eq_some] at h
  obtain ⟨beta1, hbeta1, h⟩ := h
  rw [Option.bind_eq_some] at h
  obtain ⟨beta2, hbeta2, h⟩ := h
  rw [Option.bind_eq_some] at h
  obtain ⟨gamma, hgamma, h⟩ := h
  rw [Option.bind_eq_some] at h
  obtain ⟨delta1, hdelta1, h⟩ := h
  rw [Option.bind_eq_some] at h
  obtain ⟨delta2, hdelta2, h⟩ := h
  rw [Option.bind_eq_some] at h
  obtain ⟨icLen, hicLen, h⟩ := h
  rw [Option.bind_eq_some] at h
  obtain ⟨ic, hic, h⟩ := h
  cases h
  dsimp only
  have h1 := readG1Vk_length halpha
  have h2 := readG1Vk_length hbeta1
  have h3 := readG2Vk_length hbeta2
  have h4 := readG2Vk_length hgamma
  have h5 := readG1Vk_length hdelta1
  have h6 := readG2Vk_length hdelta2
  have h7 := readU32BE_length hicLen
  have h8 := readVec_length (fun bs q hq => by rw [readG1Elem_length hq]; omega) icLen.1 icLen.2 ic hic
  omega

theorem paramsRead_length {checked : Bool} {bs : List Nat} {ps : Groth16.Parameters}
    (h : Groth16.Parameters.read checked bs = some ps) : 888 ≤ bs.length := by
  rw [Groth16.Parameters.read] at h
  rw [Option.bind_eq_some] at h
  obtain ⟨vk, hvk, h⟩ := h
  rw [Option.bind_eq_some] at h
  obtain ⟨hLen, hhLen, h⟩ := h
  rw [Option.bind_eq_some] at h
  obtain ⟨hv, hhv, h⟩ := h
  rw [Option.bind_eq_some] at h
  obtain ⟨lLen, hlLen, h⟩ := h
  rw [Option.bind_eq_some] at h
  obtain ⟨lv, hlv, h⟩ := h
  rw [Option.bind_eq_some] at h
  obtain ⟨aLen, haLen, h⟩ := h
  rw [Option.bind_eq_some] at h
  obtain ⟨av, hav, h⟩ := h
  rw [Option.bind_eq_some] at h
  obtain ⟨bg1Len, hbg1Len, h⟩ := h
  rw [Option.bind_eq_some] at h
  obtain ⟨bg1v, hbg1v, h⟩ := h
  rw [Option.bind_eq_some] at h
  obtain ⟨bg2Len, hbg2Len, h⟩ := h
  rw [Option.bind_eq_some] at h
  obtain ⟨bg2v, hbg2v, _⟩ := h
  have h1 := vkRead_length hvk
  have h2 := readU32BE_length hhLen
  have h3 := readVec_length (fun bs q hq => by rw [readG1Elem_length hq]; omega) hLen.1 hLen.2 hv hhv
  have h4 := readU32BE_length hlLen
  have h5 := readVec_length (fun bs q hq => by rw [readG1Elem_length hq]; omega) lLen.1 lLen.2 lv hlv
  have h6 := readU32BE_length haLen
  have h7 := readVec_length (fun bs q hq => by rw [readG1Elem_length hq]; omega) aLen.1 aLen.2 av hav
  have h8 := readU32BE_length hbg1Len
  have h9 := readVec_length (fun bs q hq => by rw [readG1Elem_length hq]; omega) bg1Len.1 bg1Len.2 bg1v hbg1v
  have h10 := readU32BE_length hbg2Len
  have h11 := readVec_length (fun bs q hq => by rw [readG2Elem_length hq]; omega) bg2Len.1 bg2Len.2 bg2v hbg2v
  omega

theorem shift_and_eq_testBit (b i : Nat) : (((b >>> i) &&& 1) == 1) = b.testBit i := by
  rw [Nat.testBit_to_div_mod, Nat.and_one_is_mod, Nat.shiftRight_eq_div_pow]
  rcases Nat.mod_two_eq_zero_or_one (b / 2 ^ i) with h | h <;> rw [h] <;> rfl

theorem range8_map_eq_byteBitsLSB (b : Nat) :
    ((List.range 8).map fun i => ((b >>> i) &&& 1) == 1) = byteBitsLSB b := by
  rw [show List.range 8 = [0, 1, 2, 3, 4, 5, 6, 7] from rfl]
  simp only [List.map_cons, List.map_nil, byteBitsLSB, shift_and_eq_testBit]

theorem commitment_bits_eq_flatMap (info : AssetInfo) :
    commitment_bits info = (create_commitment_plaintext info).flatMap byteBitsLSB := by
  rw [commitment_bits]
  have h : (fun byte => (List.range 8).map fun i => ((byte >>> i) &&& 1) == 1) = byteBitsLSB :=
    funext range8_map_eq_byteBitsLSB
  rw [h]

theorem readerSpec_readExact (n : Nat) : ReaderSpec (readExact n) := by
  intro bs a rest h
  rw [readExact] at h
  split at h
  case isTrue hle =>
    cases h
    have hlen : (bs.take n).length = n := by
      rw [List.length_take]
      exact min_eq_left hle
    refine ⟨bs.take n, (List.take_append_drop n bs).symm, ?_, ?_⟩
    · intro tail
      rw [readExact, if_pos (by rw [List.length_append, hlen]; omega),
        List.take_left' hlen, List.drop_left' hlen]
    · intro k hk
      rw [readExact, if_neg]
      rw [List.length_take]
      have : k ⊓ (bs.take n).length = k := min_eq_left (Nat.le_of_lt hk)
      rw [hlen] at this
      omega
  case isFalse => cases h

theorem readerSpec_pure {α : Type} (v : α) : ReaderSpec (fun bs => some (v, bs)) := by
  intro bs a rest h
  cases h
  exact ⟨[], rfl, fun tail => rfl, fun k hk => absurd hk (Nat.not_lt_zero k)⟩

theorem readerSpec_bindCont {α β : Type} {r1 : List Nat → Option (α × List Nat)}
    {k : α → List Nat → Option (β × List Nat)}
    (h1 : ReaderSpec r1) (h2 : ∀ a, ReaderSpec (k a)) :
    ReaderSpec (fun bs => (r1 bs).bind fun p => k p.1 p.2) := by
  intro bs b rest h
  rw [Option.bind_eq_some] at h
  obtain ⟨p, hp, hk⟩ := h
  obtain ⟨a1, rest1⟩ := p
  obtain ⟨c1, hbs, hdet1, hpre1⟩ := h1 bs a1 rest1 hp
  obtain ⟨c2, hrest1, hdet2, hpre2⟩ := h2 a1 rest1 b rest hk
  refine ⟨c1 ++ c2, ?_, ?_, ?_⟩
  · rw [hbs, hrest1, List.append_assoc]
  · intro tail
    dsimp only
    rw [List.append_assoc, hdet1 (c2 ++ tail), Option.some_bind]
    exact hdet2 tail
  · intro j hj
    dsimp only
    rw [List.length_append] at hj
    by_cases hc1 : j < c1.length
    · rw [List.take_append_of_le_length (Nat.le_of_lt hc1), hpre1 j hc1, Option.none_bind]
    · have hj1 : c1.length ≤ j := Nat.le_of_not_lt hc1
      rw [List.take_append_eq_append_take, List.take_of_length_le hj1,
        hdet1 (c2.take (j - c1.length)), Option.some_bind]
      exact hpre2 _ (by omega)

theorem sinkSpec_const {α : Type} (v : α) : SinkSpec (fun _ => some v) := by
  intro bs a h
  cases h
  exact ⟨[], bs, rfl, fun tail => rfl, fun k hk => absurd hk (Nat.not_lt_zero k)⟩

theorem sinkSpec_bindCont {α β : Type} {r1 : List Nat → Option (α × List Nat)}
    {k : α → List Nat → Option β}
    (h1 : ReaderSpec r1) (h2 : ∀ a, SinkSpec (k a)) :
    SinkSpec (fun bs => (r1 bs).bind fun p => k p.1 p.2) := by
  intro bs b h
  rw [Option.bind_eq_some] at h
  obtain ⟨p, hp, hk⟩ := h
  obtain ⟨a1, rest1⟩ := p
  obtain ⟨c1, hbs, hdet1, hpre1⟩ := h1 bs a1 rest1 hp
  obtain ⟨c2, rest2, hrest1, hdet2, hpre2⟩ := h2 a1 rest1 b hk
  refine ⟨c1 ++ c2, rest2, ?_, ?_, ?_⟩
  · rw [hbs, hrest1, List.append_assoc]
  · intro tail
    dsimp only
    rw [List.append_assoc, hdet1 (c2 ++ tail), Option.some_bind]
    exact hdet2 tail
  · intro j hj
    dsimp only
    rw [List.length_append] at hj
    by_cases hc1 : j < c1.length
    · rw [List.take_append_of_le_length (Nat.le_of_lt hc1), hpre1 j hc1, Option.none_bind]
    · have hj1 : c1.length ≤ j := Nat.le_of_not_lt hc1
      rw [List.take_append_eq_append_take, List.take_of_length_le hj1,
        hdet1 (c2.take (j - c1.length)), Option.some_bind]
      exact hpre2 _ (by omega)

theorem readerSpec_decode {β : Type} (o : Option β) :
    ReaderSpec (fun rest => o.bind fun P => some (P, rest)) := by
  cases o with
  | none =>
    intro bs a rest h
    simp at h
  | some v => exact readerSpec_pure v

theorem readerSpec_decodeReject {β : Type} (o : Option β) (pred : β → Bool) :
    ReaderSpec (fun rest => o.bind fun P => if pred P then none else some (P, rest)) := by
  cases o with
  | none =>
    intro bs a rest h
    simp at h
  | some v =>
    intro bs a rest h
    dsimp only at h
    rw [Option.some_bind] at h
    split at h
    case isTrue => cases h
    case isFalse hv =>
      cases h
      refine ⟨[], rfl, ?_, fun k hk => absurd hk (Nat.not_lt_zero k)⟩
      intro tail
      dsimp only
      rw [Option.some_bind, if_neg hv]
      rfl

theorem readerSpec_readG1Vk : ReaderSpec readG1Vk :=
  readerSpec_bindCont (readerSpec_readExact 96) fun a =>
    readerSpec_decode (g1FromUncompressed a)

theorem readerSpec_readG2Vk : ReaderSpec readG2Vk :=
  readerSpec_bindCont (readerSpec_readExact 192) fun a =>
    readerSpec_decode (g2FromUncompressed a)

theorem readerSpec_readU32BE : ReaderSpec readU32BE :=
  readerSpec_bindCont (readerSpec_readExact 4) fun a => readerSpec_pure (beNat a)

theorem readerSpec_readG1Elem (checked : Bool) : ReaderSpec (readG1Elem checked) :=
  readerSpec_bindCont (readerSpec_readExact 96) fun a =>
    readerSpec_decodeReject
      (if checked then g1FromUncompressed a else g1FromUncompressedUnchecked a)
      (fun P => P.infinity)

theorem readerSpec_readG2Elem (checked : Bool) : ReaderSpec (readG2Elem checked) :=
  readerSpec_bindCont (readerSpec_readExact 192) fun a =>
    readerSpec_decodeReject
      (if checked then g2FromUncompressed a else g2FromUncompressedUnchecked a)
      (fun P => P.infinity)

theorem readerSpec_readVec {α : Type} {rd : List Nat → Option (α × List Nat)}
    (hrd : ReaderSpec rd) : ∀ n, ReaderSpec (readVec rd n) := by
  intro n
  induction n with
  | zero =>
    intro bs a rest h
    rw [readVec] at h
    cases h
    refine ⟨[], rfl, ?_, fun k hk => absurd hk (Nat.not_lt_zero k)⟩
    intro tail
    rw [readVec]
    rfl
  | succ n ih =>
    exact fun bs a rest h =>
      readerSpec_bindCont hrd
        (fun a1 => readerSpec_bindCont ih fun q => readerSpec_pure (a1 :: q)) bs a rest h

theorem readerSpec_vkRead : ReaderSpec Groth16.VerifyingKey.read := by
  have hIc : ∀ (a b : G1Affine) (c d : G2Affine) (e : G1Affine) (f : G2Affine) (n : Nat),
      ReaderSpec (fun rest => (readVec (readG1Elem true) n rest).bind fun ic =>
        some ((⟨a, b, c, d, e, f, ic.1⟩ : Groth16.VerifyingKey), ic.2)) :=
    fun a b c d e f n =>
      readerSpec_bindCont (readerSpec_readVec (readerSpec_readG1Elem true) n)
        fun icv => readerSpec_pure (⟨a, b, c, d, e, f, icv⟩ : Groth16.VerifyingKey)
  have hU32 : ∀ (a b : G1Affine) (c d : G2Affine) (e : G1Affine) (f : G2Affine),
      ReaderSpec (fun rest => (readU32BE rest).bind fun icLen =>
        (readVec (readG1Elem true) icLen.1 icLen.2).bind fun ic =>
          some ((⟨a, b, c, d, e, f, ic.1⟩ : Groth16.VerifyingKey), ic.2)) :=
    fun a b c d e f => readerSpec_bindCont readerSpec_readU32BE fun n => hIc a b c d e f n
  have hDelta2 : ∀ (a b : G1Affine) (c d : G2Affine) (e : G1Affine),
      ReaderSpec (fun rest => (readG2Vk rest).bind fun delta2 =>
        (readU32BE delta2.2).bind fun icLen =>
          (readVec (readG1Elem true) icLen.1 icLen.2).bind fun ic =>
            some ((⟨a, b, c, d, e, delta2.1, ic.1⟩ : Groth16.VerifyingKey), ic.2)) :=
    fun a b c d e => readerSpec_bindCont readerSpec_readG2Vk fun f => hU32 a b c d e f
  have hDelta1 : ∀ (a b : G1Affine) (c d : G2Affine),
      ReaderSpec (fun rest => (readG1Vk rest).bind fun delta1 =>
        (readG2Vk delta1.2).bind fun delta2 =>
          (readU32BE delta2.2).bind fun icLen =>
            (readVec (readG1Elem true) icLen.1 icLen.2).bind fun ic =>
              some ((⟨a, b, c, d, delta1.1, delta2.1, ic.1⟩ : Groth16.VerifyingKey), ic.2)) :=
    fun a b c d => readerSpec_bindCont readerSpec_readG1Vk fun e => hDelta2 a b c d e
  have hGamma : ∀ (a b : G1Affine) (c : G2Affine),
      ReaderSpec (fun rest => (readG2Vk rest).bind fun gamma =>
        (readG1Vk gamma.2).bind fun delta1 =>
          (readG2Vk delta1.2).bind fun delta2 =>
            (readU32BE delta2.2).bind fun icLen =>
              (readVec (readG1Elem true) icLen.1 icLen.2).bind fun ic =>
                some ((⟨a, b, c, gamma.1, delta1.1, delta2.1, ic.1⟩ : Groth16.VerifyingKey), ic.2)) :=
    fun a b c => readerSpec_bindCont readerSpec_readG2Vk fun d => hDelta1 a b c d
  have hBeta2 : ∀ (a b : G1Affine),
      ReaderSpec (fun rest => (readG2Vk rest).bind fun beta2 =>
        (readG2Vk beta2.2).bind fun gamma =>
          (readG1Vk gamma.2).bind fun delta1 =>
            (readG2Vk delta1.2).bind fun delta2 =>
              (readU32BE delta2.2).bind fun icLen =>
                (readVec (readG1Elem true) icLen.1 icLen.2).bind fun ic =>
                  some ((⟨a, b, beta2.1, gamma.1, delta1.1, delta2.1, ic.1⟩ : Groth16.VerifyingKey), ic.2)) :=
    fun a b => readerSpec_bindCont readerSpec_readG2Vk fun c => hGamma a b c
  have hBeta1 : ∀ (a : G1Affine),
      ReaderSpec (fun rest => (readG1Vk rest).bind fun beta1 =>
        (readG2Vk beta1.2).bind fun beta2 =>
          (readG2Vk beta2.2).bind fun gamma =>
            (readG1Vk gamma.2).bind fun delta1 =>
              (readG2Vk delta1.2).bind fun delta2 =>
                (readU32BE delta2.2).bind fun icLen =>
                  (readVec (readG1Elem true) icLen.1 icLen.2).bind fun ic =>
                    some ((⟨a, beta1.1, beta2.1, gamma.1, delta1.1, delta2.1, ic.1⟩ : Groth16.VerifyingKey), ic.2)) :=
    fun a => readerSpec_bindCont readerSpec_readG1Vk fun b => hBeta2 a b
  exact fun bs a rest h =>
    (readerSpec_bindCont readerSpec_readG1Vk fun a => hBeta1 a) bs a rest h

theorem sinkSpec_paramsRead (checked : Bool) : SinkSpec (Groth16.Parameters.read checked) := by
  have sBg2 : ∀ (vk : Groth16.VerifyingKey) (hv lv av bg1v : List G1Affine) (n : Nat),
      SinkSpec (fun rest => (readVec (readG2Elem checked) n rest).bind fun bg2 =>
        some (⟨vk, hv, lv, av, bg1v, bg2.1⟩ : Groth16.Parameters)) :=
    fun vk hv lv av bg1v n =>
      sinkSpec_bindCont (readerSpec_readVec (readerSpec_readG2Elem checked) n)
        fun bg2v => sinkSpec_const ⟨vk, hv, lv, av, bg1v, bg2v⟩
  have sBg2Len : ∀ (vk : Groth16.VerifyingKey) (hv lv av bg1v : List G1Affine),
      SinkSpec (fun rest => (readU32BE rest).bind fun bg2Len =>
        (readVec (readG2Elem checked) bg2Len.1 bg2Len.2).bind fun bg2 =>
          some (⟨vk, hv, lv, av, bg1v, bg2.1⟩ : Groth16.Parameters)) :=
    fun vk hv lv av bg1v =>
      sinkSpec_bindCont readerSpec_readU32BE fun n => sBg2 vk hv lv av bg1v n
  have sBg1 : ∀ (vk : Groth16.VerifyingKey) (hv lv av : List G1Affine) (n : Nat),
      SinkSpec (fun rest => (readVec (readG1Elem checked) n rest).bind fun bg1 =>
        (readU32BE bg1.2).bind fun bg2Len =>
          (readVec (readG2Elem checked) bg2Len.1 bg2Len.2).bind fun bg2 =>
            some (⟨vk, hv, lv, av, bg1.1, bg2.1⟩ : Groth16.Parameters)) :=
    fun vk hv lv av n =>
      sinkSpec_bindCont (readerSpec_readVec (readerSpec_readG1Elem checked) n)
        fun bg1v => sBg2Len vk hv lv av bg1v
  have sBg1Len : ∀ (vk : Groth16.VerifyingKey) (hv lv av : List G1Affine),
      SinkSpec (fun rest => (readU32BE rest).bind fun bg1Len =>
        (readVec (readG1Elem checked) bg1Len.1 bg1Len.2).bind fun bg1 =>
          (readU32BE bg1.2).bind fun bg2Len =>
            (readVec (readG2Elem checked) bg2Len.1 bg2Len.2).bind fun bg2 =>
              some (⟨vk, hv, lv, av, bg1.1, bg2.1⟩ : Groth16.Parameters)) :=
    fun vk hv lv av => sinkSpec_bindCont readerSpec_readU32BE fun n => sBg1 vk hv lv av n
  have sA : ∀ (vk : Groth16.VerifyingKey) (hv lv : List G1Affine) (n : Nat),
      SinkSpec (fun rest => (readVec (readG1Elem checked) n rest).bind fun a =>
        (readU32BE a.2).bind fun bg1Len =>
          (readVec (readG1Elem checked) bg1Len.1 bg1Len.2).bind fun bg1 =>
            (readU32BE bg1.2).bind fun bg2Len =>
              (readVec (readG2Elem checked) bg2Len.1 bg2Len.2).bind fun bg2 =>
                some (⟨vk, hv, lv, a.1, bg1.1, bg2.1⟩ : Groth16.Parameters)) :=
    fun vk hv lv n =>
      sinkSpec_bindCont (readerSpec_readVec (readerSpec_readG1Elem checked) n)
        fun av => sBg1Len vk hv lv av
  have sALen : ∀ (vk : Groth16.VerifyingKey) (hv lv : List G1Affine),
      SinkSpec (fun rest => (readU32BE rest).bind fun aLen =>
        (readVec (readG1Elem checked) aLen.1 aLen.2).bind fun a =>
          (readU32BE a.2).bind fun bg1Len =>
            (readVec (readG1Elem checked) bg1Len.1 bg1Len.2).bind fun bg1 =>
              (readU32BE bg1.2).bind fun bg2Len =>
                (readVec (readG2Elem checked) bg2Len.1 bg2Len.2).bind fun bg2 =>
                  some (⟨vk, hv, lv, a.1, bg1.1, bg2.1⟩ : Groth16.Parameters)) :=
    fun vk hv lv => sinkSpec_bindCont readerSpec_readU32BE fun n => sA vk hv lv n
  have sL : ∀ (vk : Groth16.VerifyingKey) (hv : List G1Affine) (n : Nat),
      SinkSpec (fun rest => (readVec (readG1Elem checked) n rest).bind fun l =>
        (readU32BE l.2).bind fun aLen =>
          (readVec (readG1Elem checked) aLen.1 aLen.2).bind fun a =>
            (readU32BE a.2).bind fun bg1Len =>
              (readVec (readG1Elem checked) bg1Len.1 bg1Len.2).bind fun bg1 =>
                (readU32BE bg1.2).bind fun bg2Len =>
                  (readVec (readG2Elem checked) bg2Len.1 bg2Len.2).bind fun bg2 =>
                    some (⟨vk, hv, l.1, a.1, bg1.1, bg2.1⟩ : Groth16.Parameters)) :=
    fun vk hv n =>
      sinkSpec_bindCont (readerSpec_readVec (readerSpec_readG1Elem checked) n)
        fun lv => sALen vk hv lv
  have sLLen : ∀ (vk : Groth16.VerifyingKey) (hv : List G1Affine),
      SinkSpec (fun rest => (readU32BE rest).bind fun lLen =>
        (readVec (readG1Elem checked) lLen.1 lLen.2).bind fun l =>
          (readU32BE l.2).bind fun aLen =>
            (readVec (readG1Elem checked) aLen.1 aLen.2).bind fun a =>
              (readU32BE a.2).bind fun bg1Len =>
                (readVec (readG1Elem checked) bg1Len.1 bg1Len.2).bind fun bg1 =>
                  (readU32BE bg1.2).bind fun bg2Len =>
                    (readVec (readG2Elem checked) bg2Len.1 bg2Len.2).bind fun bg2 =>
                      some (⟨vk, hv, l.1, a.1, bg1.1, bg2.1⟩ : Groth16.Parameters)) :=
    fun vk hv => sinkSpec_bindCont readerSpec_readU32BE fun n => sL vk hv n
  have sH : ∀ (vk : Groth16.VerifyingKey) (n : Nat),
      SinkSpec (fun rest => (readVec (readG1Elem checked) n rest).bind fun h =>
        (readU32BE h.2).bind fun lLen =>
          (readVec (readG1Elem checked) lLen.1 lLen.2).bind fun l =>
            (readU32BE l.2).bind fun aLen =>
              (readVec (readG1Elem checked) aLen.1 aLen.2).bind fun a =>
                (readU32BE a.2).bind fun bg1Len =>
                  (readVec (readG1Elem checked) bg1Len.1 bg1Len.2).bind fun bg1 =>
                    (readU32BE bg1.2).bind fun bg2Len =>
                      (readVec (readG2Elem checked) bg2Len.1 bg2Len.2).bind fun bg2 =>
                        some (⟨vk, h.1, l.1, a.1, bg1.1, bg2.1⟩ : Groth16.Parameters)) :=
    fun vk n =>
      sinkSpec_bindCont (readerSpec_readVec (readerSpec_readG1Elem checked) n)
        fun hv => sLLen vk hv
  have sHLen : ∀ (vk : Groth16.VerifyingKey),
      SinkSpec (fun rest => (readU32BE rest).bind fun hLen =>
        (readVec (readG1Elem checked) hLen.1 hLen.2).bind fun h =>
          (readU32BE h.2).bind fun lLen =>
            (readVec (readG1Elem checked) lLen.1 lLen.2).bind fun l =>
              (readU32BE l.2).bind fun aLen =>
                (readVec (readG1Elem checked) aLen.1 aLen.2).bind fun a =>
                  (readU32BE a.2).bind fun bg1Len =>
                    (readVec (readG1Elem checked) bg1Len.1 bg1Len.2).bind fun bg1 =>
                      (readU32BE bg1.2).bind fun bg2Len =>
                        (readVec (readG2Elem checked) bg2Len.1 bg2Len.2).bind fun bg2 =>
                          some (⟨vk, h.1, l.1, a.1, bg1.1, bg2.1⟩ : Groth16.Parameters)) :=
    fun vk => sinkSpec_bindCont readerSpec_readU32BE fun n => sH vk n
  exact fun bs a h =>
    (sinkSpec_bindCont readerSpec_vkRead fun vk => sHLen vk) bs a h

theorem sinkSpec_load_params : SinkSpec Sapling.load_params :=
  fun bs a h => sinkSpec_paramsRead false bs a h

theorem readG1Vk_rest {bs : List Nat} {p : G1Affine × List Nat}
    (h : readG1Vk bs = some p) : p.2 = bs.drop 96 := by
  rw [readG1Vk] at h
  rw [Option.bind_eq_some] at h
  obtain ⟨q, hq, h⟩ := h
  rw [Option.bind_eq_some] at h
  obtain ⟨P, _, h⟩ := h
  cases h
  rw [readExact] at hq
  split at hq
  · cases hq
    rfl
  · cases hq

theorem readG2Vk_rest {bs : List Nat} {p : G2Affine × List Nat}
    (h : readG2Vk bs = some p) : p.2 = bs.drop 192 := by
  rw [readG2Vk] at h
  rw [Option.bind_eq_some] at h
  obtain ⟨q, hq, h⟩ := h
  rw [Option.bind_eq_some] at h
  obtain ⟨P, _, h⟩ := h
  cases h
  rw [readExact] at hq
  split at hq
  · cases hq
    rfl
  · cases hq

theorem readG1Elem_rest {checked : Bool} {bs : List Nat} {p : G1Affine × List Nat}
    (h : readG1Elem checked bs = some p) : p.2 = bs.drop 96 := by
  rw [readG1Elem] at h
  rw [Option.bind_eq_some] at h
  obtain ⟨q, hq, h⟩ := h
  rw [Option.bind_eq_some] at h
  obtain ⟨P, _, h⟩ := h
  split at h
  · cases h
  · cases h
    rw [readExact] at hq
    split at hq
    · cases hq
      rfl
    · cases hq

theorem readU32BE_rest {bs : List Nat} {p : Nat × List Nat}
    (h : readU32BE bs = some p) : p.2 = bs.drop 4 := by
  rw [readU32BE] at h
  rw [Option.bind_eq_some] at h
  obtain ⟨q, hq, h⟩ := h
  cases h
  rw [readExact] at hq
  split at hq
  · cases hq
    rfl
  · cases hq

theorem readG1Vk_none_of_invalid {cs : List Nat} {P : G1Affine}
    (hP : g1FromUncompressedUnchecked (cs.take 96) = some P)
    (hval : (g1OnCurve P && g1InSubgroup P) = false) : readG1Vk cs = none := by
  have hfc : g1FromUncompressed (cs.take 96) = none := by
    rw [g1FromUncompressed, hP, Option.some_bind]
    simp [hval]
  by_cases hlen : 96 ≤ cs.length
  · rw [readG1Vk, readExact, if_pos hlen, Option.some_bind, hfc, Option.none_bind]
  · rw [readG1Vk, readExact, if_neg hlen, Option.none_bind]

theorem readG2Vk_none_of_invalid {cs : List Nat} {P : G2Affine}
    (hP : g2FromUncompressedUnchecked (cs.take 192) = some P)
    (hval : (g2OnCurve P && g2InSubgroup P) = false) : readG2Vk cs = none := by
  have hfc : g2FromUncompressed (cs.take 192) = none := by
    rw [g2FromUncompressed, hP, Option.some_bind]
    simp [hval]
  by_cases hlen : 192 ≤ cs.length
  · rw [readG2Vk, readExact, if_pos hlen, Option.some_bind, hfc, Option.none_bind]
  · rw [readG2Vk, readExact, if_neg hlen, Option.none_bind]

theorem readG1ElemTrue_none_of_invalid {cs : List Nat} {P : G1Affine}
    (hP : g1FromUncompressedUnchecked (cs.take 96) = some P)
    (hval : (g1OnCurve P && g1InSubgroup P) = false) : readG1Elem true cs = none := by
  have hfc : g1FromUncompressed (cs.take 96) = none := by
    rw [g1FromUncompressed, hP, Option.some_bind]
    simp [hval]
  by_cases hlen : 96 ≤ cs.length
  · rw [readG1Elem, readExact, if_pos hlen, Option.some_bind, if_pos rfl, hfc, Option.none_bind]
  · rw [readG1Elem, readExact, if_neg hlen, Option.none_bind]

theorem readVec_icFail :
    ∀ (n j : Nat) (cs : List Nat) (P : G1Affine), j < n →
      g1FromUncompressedUnchecked ((cs.drop (96 * j)).take 96) = some P →
      (g1OnCurve P && g1InSubgroup P) = false →
      readVec (readG1Elem true) n cs = none := by
  intro n
  induction n with
  | zero =>
    intro j cs P hj
    exact absurd hj (Nat.not_lt_zero j)
  | succ n ih =>
    intro j cs P hj hP hval
    rw [readVec]
    cases j with
    | zero =>
      rw [Nat.mul_zero, List.drop_zero] at hP
      rw [readG1ElemTrue_none_of_invalid hP hval, Option.none_bind]
    | succ j0 =>
      cases h1 : readG1Elem true cs with
      | none => rw [Option.none_bind]
      | some p =>
        rw [Option.some_bind]
        have hrest : p.2 = cs.drop 96 := readG1Elem_rest h1
        have hP2 : g1FromUncompressedUnchecked ((p.2.drop (96 * j0)).take 96) = some P := by
          rw [hrest, List.drop_drop, show 96 + 96 * j0 = 96 * (j0 + 1) by ring]
          exact hP
        rw [ih j0 p.2 P (by omega) hP2 hval, Option.none_bind]

/-- C1 (amended).  Truncated parameter blobs always make `Sapling::load_params`
fail: any blob below the 888-byte minimum is rejected, and, in general, every
successful load factors the blob into the prefix `c` the parser consumed plus
ignored trailing bytes, and cutting the blob anywhere inside `c` makes the
load fail.  Every point of the verifying-key section is validated: an
off-curve or out-of-subgroup point in any of the six fixed verifying-key
slots (`alpha_g1`, `beta_g1`, `beta_g2`, `gamma_g2`, `delta_g1`, `delta_g2`,
at byte offsets 0, 96, 192, 384, 576, 672) or in any entry of the `ic` vector
(offset `868 + 96 j`) makes the load fail.  However, because `load_params`
invokes `groth16::Parameters::read` with `checked = false`, the points of the
`h`, `l`, `a`, `b_g1`, `b_g2` tables are deserialized without on-curve or
subgroup validation, so a structurally invalid table point does not cause a
failure (see the counterexample `load_params_accepts_off_curve_table_point`). -/
theorem load_params_rejects_truncation_and_checks_vk (bs : List Nat) :
    (bs.length < 888 → Sapling.load_params bs = none) ∧
    (∀ ps, Sapling.load_params bs = some ps →
      ∃ c rest, bs = c ++ rest ∧ 888 ≤ c.length ∧
        (∀ tail, Sapling.load_params (c ++ tail) = some ps) ∧
        (∀ k, k < c.length → Sapling.load_params (bs.take k) = none)) ∧
    (∀ P : G1Affine, g1FromUncompressedUnchecked (bs.take 96) = some P →
      (g1OnCurve P && g1InSubgroup P) = false → Sapling.load_params bs = none) ∧
    (∀ P : G1Affine, g1FromUncompressedUnchecked ((bs.drop 96).take 96) = some P →
      (g1OnCurve P && g1InSubgroup P) = false → Sapling.load_params bs = none) ∧
    (∀ P : G2Affine, g2FromUncompressedUnchecked ((bs.drop 192).take 192) = some P →
      (g2OnCurve P && g2InSubgroup P) = false → Sapling.load_params bs = none) ∧
    (∀ P : G2Affine, g2FromUncompressedUnchecked ((bs.drop 384).take 192) = some P →
      (g2OnCurve P && g2InSubgroup P) = false → Sapling.load_params bs = none) ∧
    (∀ P : G1Affine, g1FromUncompressedUnchecked ((bs.drop 576).take 96) = some P →
      (g1OnCurve P && g1InSubgroup P) = false → Sapling.load_params bs = none) ∧
    (∀ P : G2Affine, g2FromUncompressedUnchecked ((bs.drop 672).take 192) = some P →
      (g2OnCurve P && g2InSubgroup P) = false → Sapling.load_params bs = none) ∧
    (∀ (n : Nat × List Nat) (j : Nat) (P : G1Affine),
      readU32BE (bs.drop 864) = some n → j < n.1 →
      g1FromUncompressedUnchecked ((bs.drop (868 + 96 * j)).take 96) = some P →
      (g1OnCurve P && g1InSubgroup P) = false → Sapling.load_params bs = none) := by
  have hlift : Groth16.VerifyingKey.read bs = none → Sapling.load_params bs = none := by
    intro hvk
    rw [Sapling.load_params, Groth16.Parameters.read, hvk, Option.none_bind]
  refine ⟨?_, ?_, ?_, ?_, ?_, ?_, ?_, ?_, ?_⟩
  · intro hlen
    cases hlp : Sapling.load_params bs with
    | none => rfl
    | some ps =>
      have := paramsRead_length hlp
      omega
  · intro ps hps
    obtain ⟨c, rest, hbs, hdet, hpre⟩ := sinkSpec_load_params bs ps hps
    have h888 : 888 ≤ c.length := by
      have hc : Sapling.load_params c = some ps := by
        have := hdet []
        rwa [List.append_nil] at this
      exact paramsRead_length hc
    refine ⟨c, rest, hbs, h888, hdet, ?_⟩
    intro k hk
    have htake : bs.take k = c.take k := by
      rw [hbs, List.take_append_of_le_length (Nat.le_of_lt hk)]
    rw [htake]
    exact hpre k hk
  · intro P hP hval
    apply hlift
    rw [Groth16.VerifyingKey.read, readG1Vk_none_of_invalid hP hval, Option.none_bind]
  · intro P hP hval
    apply hlift
    rw [Groth16.VerifyingKey.read]
    cases h1 : readG1Vk bs with
    | none => rw [Option.none_bind]
    | some alpha =>
      rw [Option.some_bind]
      have h2 : readG1Vk alpha.2 = none := by
        rw [readG1Vk_rest h1]
        exact readG1Vk_none_of_invalid hP hval
      rw [h2, Option.none_bind]
  · intro P hP hval
    apply hlift
    rw [Groth16.VerifyingKey.read]
    cases h1 : readG1Vk bs with
    | none => rw [Option.none_bind]
    | some alpha =>
      rw [Option.some_bind]
      cases h2 : readG1Vk alpha.2 with
      | none => rw [Option.none_bind]
      | some beta1 =>
        rw [Option.some_bind]
        have hr : beta1.2 = bs.drop 192 := by
          rw [readG1Vk_rest h2, readG1Vk_rest h1, List.drop_drop]
        have h3 : readG2Vk beta1.2 = none := by
          rw [hr]
          exact readG2Vk_none_of_invalid hP hval
        rw [h3, Option.none_bind]
  · intro P hP hval
    apply hlift
    rw [Groth16.VerifyingKey.read]
    cases h1 : readG1Vk bs with
    | none => rw [Option.none_bind]
    | some alpha =>
      rw [Option.some_bind]
      cases h2 : readG1Vk alpha.2 with
      | none => rw [Option.none_bind]
      | some beta1 =>
        rw [Option.some_bind]
        cases h3 : readG2Vk beta1.2 with
        | none => rw [Option.none_bind]
        | some beta2 =>
          rw [Option.some_bind]
          have hr : beta2.2 = bs.drop 384 := by
            rw [readG2Vk_rest h3, readG1Vk_rest h2, readG1Vk_rest h1,
              List.drop_drop, List.drop_drop]
          have h4 : readG2Vk beta2.2 = none := by
            rw [hr]
            exact readG2Vk_none_of_invalid hP hval
          rw [h4, Option.none_bind]
  · intro P hP hval
    apply hlift
    rw [Groth16.VerifyingKey.read]
    cases h1 : readG1Vk bs with
    | none => rw [Option.none_bind]
    | some alpha =>
      rw [Option.some_bind]
      cases h2 : readG1Vk alpha.2 with
      | none => rw [Option.none_bind]
      | some beta1 =>
        rw [Option.some_bind]
        cases h3 : readG2Vk beta1.2 with
        | none => rw [Option.none_bind]
        | some beta2 =>
          rw [Option.some_bind]
          cases h4 : readG2Vk beta2.2 with
          | none => rw [Option.none_bind]
          | some gamma =>
            rw [Option.some_bind]
            have hr : gamma.2 = bs.drop 576 := by
              rw [readG2Vk_rest h4, readG2Vk_rest h3, readG1Vk_rest h2, readG1Vk_rest h1,
                List.drop_drop, List.drop_drop, List.drop_drop]
            have h5 : readG1Vk gamma.2 = none := by
              rw [hr]
              exact readG1Vk_none_of_invalid hP hval
            rw [h5, Option.none_bind]
  · intro P hP hval
    apply hlift
    rw [Groth16.VerifyingKey.read]
    cases h1 : readG1Vk bs with
    | none => rw [Option.none_bind]
    | some alpha =>
      rw [Option.some_bind]
      cases h2 : readG1Vk alpha.2 with
      | none => rw [Option.none_bind]
      | some beta1 =>
        rw [Option.some_bind]
        cases h3 : readG2Vk beta1.2 with
        | none => rw [Option.none_bind]
        | some beta2 =>
          rw [Option.some_bind]
          cases h4 : readG2Vk beta2.2 with
          | none => rw [Option.none_bind]
          | some gamma =>
            rw [Option.some_bind]
            cases h5 : readG1Vk gamma.2 with
            | none => rw [Option.none_bind]
            | some delta1 =>
              rw [Option.some_bind]
              have hr : delta1.2 = bs.drop 672 := by
                rw [readG1Vk_rest h5, readG2Vk_rest h4, readG2Vk_rest h3,
                  readG1Vk_rest h2, readG1Vk_rest h1,
                  List.drop_drop, List.drop_drop, List.drop_drop, List.drop_drop]
              have h6 : readG2Vk delta1.2 = none := by
                rw [hr]
                exact readG2Vk_none_of_invalid hP hval
              rw [h6, Option.none_bind]
  · intro n j P hn hj hP hval
    apply hlift
    rw [Groth16.VerifyingKey.read]
    cases h1 : readG1Vk bs with
    | none => rw [Option.none_bind]
    | some alpha =>
      rw [Option.some_bind]
      cases h2 : readG1Vk alpha.2 with
      | none => rw [Option.none_bind]
      | some beta1 =>
        rw [Option.some_bind]
        cases h3 : readG2Vk beta1.2 with
        | none => rw [Option.none_bind]
        | some beta2 =>
          rw [Option.some_bind]
          cases h4 : readG2Vk beta2.2 with
          | none => rw [Option.none_bind]
          | some gamma =>
            rw [Option.some_bind]
            cases h5 : readG1Vk gamma.2 with
            | none => rw [Option.none_bind]
            | some delta1 =>
              rw [Option.some_bind]
              cases h6 : readG2Vk delta1.2 with
              | none => rw [Option.none_bind]
              | some delta2 =>
                rw [Option.some_bind]
                have hr : delta2.2 = bs.drop 864 := by
                  rw [readG2Vk_rest h6, readG1Vk_rest h5, readG2Vk_rest h4,
                    readG2Vk_rest h3, readG1Vk_rest h2, readG1Vk_rest h1,
                    List.drop_drop, List.drop_drop, List.drop_drop, List.drop_drop,
                    List.drop_drop]
                rw [hr, hn, Option.some_bind]
                have hn2 : n.2 = bs.drop 868 := by
                  rw [readU32BE_rest hn, List.drop_drop]
                rw [hn2]
                have hvec : readVec (readG1Elem true) n.1 (bs.drop 868) = none := by
                  apply readVec_icFail n.1 j (bs.drop 868) P hj _ hval
                  rw [List.drop_drop]
                  exact hP
                rw [hvec, Option.none_bind]

set_option maxRecDepth 1000000 in
/-- Witness for `load_params_rejects_truncation_and_checks_vk`: a 10-byte
blob is rejected as truncated; the accepted 888-byte blob `goodBlob` factors
through its consumed prefix, every truncation of which fails; and blobs with
the off-curve point `(1, 1)` in the `alpha_g1` slot, in the `delta_g2` slot,
or as the single `ic` entry are all rejected by the checked verifying-key
reads. -/
theorem load_params_rejects_truncation_and_checks_vk_witness :
    Sapling.load_params (List.replicate 10 0) = none ∧
    (∃ c rest, goodBlob = c ++ rest ∧ 888 ≤ c.length ∧
      (∀ tail, Sapling.load_params (c ++ tail) = some goodParameters) ∧
      (∀ k, k < c.length → Sapling.load_params (goodBlob.take k) = none)) ∧
    Sapling.load_params badPointBytes = none ∧
    Sapling.load_params badDelta2Blob = none ∧
    Sapling.load_params badIcBlob = none := by
  refine ⟨?_, ?_, ?_, ?_, ?_⟩
  · exact (load_params_rejects_truncation_and_checks_vk (List.replicate 10 0)).1 (by decide)
  · exact (load_params_rejects_truncation_and_checks_vk goodBlob).2.1 goodParameters (by decide)
  · exact (load_params_rejects_truncation_and_checks_vk badPointBytes).2.2.1 badPointG1
      (by decide) (by decide)
  · exact (load_params_rejects_truncation_and_checks_vk badDelta2Blob).2.2.2.2.2.2.2.1
      badPointG2 (by decide) (by decide)
  · exact (load_params_rejects_truncation_and_checks_vk badIcBlob).2.2.2.2.2.2.2.2
      (1, badPointBytes) 0 badPointG1 (by decide) (by decide) (by decide) (by decide)

set_option maxRecDepth 200000 in
/-- Counterexample to C1 as stated: a parameter blob whose `h` table contains
the pair `(1, 1)`, which is not on the BLS12-381 curve, is nevertheless
accepted by `Sapling::load_params` (the table reads are unchecked because
`load_params` passes `checked = false`), yielding a parameter object rather
than a failure. -/
theorem load_params_accepts_off_curve_table_point :
    Sapling.load_params badBlob = some badParameters ∧
    badParameters.h = [badPointG1] ∧
    g1OnCurve badPointG1 = false := by
  refine ⟨?_, rfl, by decide⟩
  decide

/-- C2.  Every `Sapling` value produced by `load` stores, for each of the four
circuit kinds, exactly `prepare_verifying_key` applied to the verification key
embedded in that same circuit's deserialized proving parameters.  Since
equality pins each stored key to its own circuit's parameters, it can coincide
with a key derived from another circuit's parameters only if the two derived
keys are equal anyway. -/
theorem sapling_load_prepares_own_verifying_keys {Gt G2P : Type}
    (pairing : G1Affine → G2Affine → Gt) (g2Prepare : G2Affine → G2P)
    (b1 b2 b3 b4 : List Nat) (s : Sapling Gt G2P)
    (h : Sapling.load pairing g2Prepare b1 b2 b3 b4 = some s) :
    s.spend_verifying_key = prepare_verifying_key pairing g2Prepare s.spend_params.vk ∧
    s.receipt_verifying_key = prepare_verifying_key pairing g2Prepare s.receipt_params.vk ∧
    s.create_asset_verifying_key =
      prepare_verifying_key pairing g2Prepare s.create_asset_params.vk ∧
    s.mint_asset_verifying_key =
      prepare_verifying_key pairing g2Prepare s.mint_asset_params.vk := by
  rw [Sapling.load] at h
  rw [Option.bind_eq_some] at h
  obtain ⟨p1, _, h⟩ := h
  rw [Option.bind_eq_some] at h
  obtain ⟨p2, _, h⟩ := h
  rw [Option.bind_eq_some] at h
  obtain ⟨p3, _, h⟩ := h
  rw [Option.bind_eq_some] at h
  obtain ⟨p4, _, h⟩ := h
  cases h
  exact ⟨rfl, rfl, rfl, rfl⟩

set_option maxRecDepth 1000000 in
/-- Witness for `sapling_load_prepares_own_verifying_keys`: four copies of the
concrete 888-byte blob `goodBlob` load successfully, and the resulting store
satisfies the four equalities. -/
theorem sapling_load_prepares_own_verifying_keys_witness :
    goodSapling.spend_verifying_key =
      prepare_verifying_key pairing0 g2Prepare0 goodSapling.spend_params.vk ∧
    goodSapling.receipt_verifying_key =
      prepare_verifying_key pairing0 g2Prepare0 goodSapling.receipt_params.vk ∧
    goodSapling.create_asset_verifying_key =
      prepare_verifying_key pairing0 g2Prepare0 goodSapling.create_asset_params.vk ∧
    goodSapling.mint_asset_verifying_key =
      prepare_verifying_key pairing0 g2Prepare0 goodSapling.mint_asset_params.vk :=
  sapling_load_prepares_own_verifying_keys pairing0 g2Prepare0
    goodBlob goodBlob goodBlob goodBlob goodSapling (by decide)

/-- C6.  If deserialization of any of the four parameter blobs fails,
`Sapling::load` yields no `Sapling` value at all (the `unwrap` panic is
modelled by `none`): there is no fallback and no partially constructed
store. -/
theorem sapling_load_fatal_on_any_failure {Gt G2P : Type}
    (pairing : G1Affine → G2Affine → Gt) (g2Prepare : G2Affine → G2P)
    (b1 b2 b3 b4 : List Nat)
    (h : Sapling.load_params b1 = none ∨ Sapling.load_params b2 = none ∨
      Sapling.load_params b3 = none ∨ Sapling.load_params b4 = none) :
    Sapling.load pairing g2Prepare b1 b2 b3 b4 = none := by
  rw [Sapling.load]
  rcases h with h | h | h | h
  · rw [h, Option.none_bind]
  · cases h1 : Sapling.load_params b1 with
    | none => rw [Option.none_bind]
    | some p1 => rw [Option.some_bind, h, Option.none_bind]
  · cases h1 : Sapling.load_params b1 with
    | none => rw [Option.none_bind]
    | some p1 =>
      rw [Option.some_bind]
      cases h2 : Sapling.load_params b2 with
      | none => rw [Option.none_bind]
      | some p2 => rw [Option.some_bind, h, Option.none_bind]
  · cases h1 : Sapling.load_params b1 with
    | none => rw [Option.none_bind]
    | some p1 =>
      rw [Option.some_bind]
      cases h2 : Sapling.load_params b2 with
      | none => rw [Option.none_bind]
      | some p2 =>
        rw [Option.some_bind]
        cases h3 : Sapling.load_params b3 with
        | none => rw [Option.none_bind]
        | some p3 => rw [Option.some_bind, h, Option.none_bind]

/-- Witness for `sapling_load_fatal_on_any_failure`: with four empty blobs
(each of which fails to deserialize), `load` yields nothing. -/
theorem sapling_load_fatal_on_any_failure_witness :
    Sapling.load pairing0 g2Prepare0 [] [] [] [] = none :=
  sapling_load_fatal_on_any_failure pairing0 g2Prepare0 [] [] [] [] (by decide)

/-- C3.  For every note, `commitment_full_point` hashes exactly the byte
sequence `GH_FIRST_BLOCK`, then the asset name bytes, then the owner address
bytes, then the single nonce byte, in that order; every byte is expanded to
eight bits least-significant-bit first; and the resulting bit sequence is fed
to the Pedersen hash under the `NoteCommitment` personalization (the blinding
term is then added).  The right-hand side restates the preimage and the bit
order independently of the source's shift-and-mask loop, via `Nat.testBit`. -/
theorem commitment_full_point_hashes_exact_preimage {J : Type} [AddCommGroup J]
    (S : AddSubgroup J) (pedersen_hash : Personalization → List Bool → S) (gen : S)
    (note : CreateAssetNote) :
    CreateAssetNote.commitment_full_point S pedersen_hash gen note =
      pedersen_hash Personalization.NoteCommitment
        ((GH_FIRST_BLOCK ++ note.asset_info.name ++ note.asset_info.public_address_bytes ++
          [note.asset_info.nonce]).flatMap byteBitsLSB) +
      note.randomness.val • gen := by
  rw [CreateAssetNote.commitment_full_point, commitment_bits_eq_flatMap,
    create_commitment_plaintext]

/-- C4.  For every note, `commitment_point` returns exactly the `u` (first)
affine coordinate of the point obtained by adding, to the Pedersen hash point
(taken in the ambient extended-point model), the note's randomness scalar
multiplied by `NOTE_COMMITMENT_RANDOMNESS_GENERATOR`. -/
theorem commitment_point_is_blinded_affine_u {J : Type} [AddCommGroup J]
    (S : AddSubgroup J) (pedersen_hash : Personalization → List Bool → S) (gen : S)
    (to_affine : J → AffinePoint) (note : CreateAssetNote) :
    CreateAssetNote.commitment_point S pedersen_hash gen to_affine note =
      (to_affine
        ((pedersen_hash Personalization.NoteCommitment (commitment_bits note.asset_info) : J) +
          note.randomness.val • (gen : J))).u := by
  rw [CreateAssetNote.commitment_point, CreateAssetNote.commitment_full_point,
    AffinePoint.get_u, AddSubgroup.coe_add, AddSubgroupClass.coe_nsmul]

/-- C5.  `CreateAssetNote::new` samples the blinding scalar by drawing a
64-byte (512-bit) buffer from the random stream — at least double the 252-bit
length of the Jubjub scalar field — and reduces it into the field by wide
reduction: the stored randomness is exactly the 512-bit little-endian integer
of the buffer taken modulo the field order. -/
theorem create_asset_note_new_wide_reduction (info : AssetInfo) (rng : Nat → Nat) :
    (CreateAssetNote.new info rng).randomness =
      Fr.from_bytes_wide ((List.range 64).map fun i => rng i % 256) ∧
    ((List.range 64).map fun i => rng i % 256).length = 64 ∧
    (CreateAssetNote.new info rng).randomness.val =
      leNat ((List.range 64).map fun i => rng i % 256) % qJ ∧
    qJ < 2 ^ 252 ∧ 2 * 252 ≤ 64 * 8 := by
  refine ⟨rfl, by simp, ?_, by norm_num [qJ], by norm_num⟩
  rw [show (CreateAssetNote.new info rng).randomness =
    Fr.from_bytes_wide ((List.range 64).map fun i => rng i % 256) from rfl]
  rw [Fr.from_bytes_wide]
  exact ZMod.val_natCast _

/-- C9.  The sampled blinding scalar never depends on the asset metadata: with
the random source modelled as an explicit stream, `new` stores the identical
randomness scalar for any two metadata values read against the same stream
state. -/
theorem new_randomness_independent_of_metadata (a b : AssetInfo) (rng : Nat → Nat) :
    (CreateAssetNote.new a rng).randomness = (CreateAssetNote.new b rng).randomness := rfl

/-- C7.  Commitment derivation is pure and deterministic: `commitment_point`
is a mathematical function of the pair `(asset_info, randomness)` alone (the
external primitives being fixed), so two notes agreeing on those two fields —
in particular, two invocations on the same note — yield bit-identical
scalars. -/
theorem commitment_point_pure {J : Type} [AddCommGroup J] (S : AddSubgroup J)
    (pedersen_hash : Personalization → List Bool → S) (gen : S)
    (to_affine : J → AffinePoint) (n1 n2 : CreateAssetNote)
    (hinfo : n1.asset_info = n2.asset_info) (hrand : n1.randomness = n2.randomness) :
    CreateAssetNote.commitment_point S pedersen_hash gen to_affine n1 =
      CreateAssetNote.commitment_point S pedersen_hash gen to_affine n2 := by
  obtain ⟨i1, r1⟩ := n1
  obtain ⟨i2, r2⟩ := n2
  cases hinfo
  cases hrand
  rfl

/-- Witness for `commitment_point_pure` at a concrete instantiation and
note. -/
theorem commitment_point_pure_witness :
    CreateAssetNote.commitment_point Sfull ph0 gen0 toAffine0 note0 =
      CreateAssetNote.commitment_point Sfull ph0 gen0 toAffine0 note0 :=
  commitment_point_pure Sfull ph0 gen0 toAffine0 note0 note0 rfl rfl

/-- C8.  Distinct asset metadata (differing in name, address, or nonce, with
the fixed-length 32-byte addresses the spec prescribes) always produce
distinct hash preimages; consequently the blinded commitment points under one
fixed randomness differ exactly when the Pedersen hash separates the two
distinct preimages — which a collision-resistant hash does with overwhelming
probability (the probabilistic part is not formalizable). -/
theorem distinct_metadata_distinct_preimage (a b : AssetInfo)
    (ha : a.public_address_bytes.length = 32) (hb : b.public_address_bytes.length = 32)
    (hne : a.name ≠ b.name ∨ a.public_address_bytes ≠ b.public_address_bytes ∨
      a.nonce ≠ b.nonce) :
    create_commitment_plaintext a ≠ create_commitment_plaintext b ∧
    ∀ (J : Type) [AddCommGroup J] (S : AddSubgroup J)
      (pedersen_hash : Personalization → List Bool → S) (gen : S) (r : Fr),
      (CreateAssetNote.commitment_full_point S pedersen_hash gen ⟨a, r⟩ ≠
          CreateAssetNote.commitment_full_point S pedersen_hash gen ⟨b, r⟩ ↔
        pedersen_hash Personalization.NoteCommitment (commitment_bits a) ≠
          pedersen_hash Personalization.NoteCommitment (commitment_bits b)) := by
  constructor
  · intro heq
    rw [create_commitment_plaintext, create_commitment_plaintext] at heq
    simp only [List.append_assoc] at heq
    have h1 := List.append_cancel_left heq
    have h2 := List.append_inj' h1 (by simp [ha, hb])
    obtain ⟨hn, h3⟩ := h2
    have h4 := List.append_inj h3 (by rw [ha, hb])
    obtain ⟨had, h5⟩ := h4
    have hno : a.nonce = b.nonce := by
      simpa using h5
    rcases hne with h | h | h
    exacts [h hn, h had, h hno]
  · intro J instJ S pedersen_hash gen r
    rw [CreateAssetNote.commitment_full_point, CreateAssetNote.commitment_full_point]
    exact not_congr (add_left_inj _)

/-- Witness for `distinct_metadata_distinct_preimage`: two concrete metadata
values differing only in the nonce. -/
theorem distinct_metadata_distinct_preimage_witness :
    create_commitment_plaintext assetA ≠ create_commitment_plaintext assetB ∧
    ∀ (J : Type) [AddCommGroup J] (S : AddSubgroup J)
      (pedersen_hash : Personalization → List Bool → S) (gen : S) (r : Fr),
      (CreateAssetNote.commitment_full_point S pedersen_hash gen ⟨assetA, r⟩ ≠
          CreateAssetNote.commitment_full_point S pedersen_hash gen ⟨assetB, r⟩ ↔
        pedersen_hash Personalization.NoteCommitment (commitment_bits assetA) ≠
          pedersen_hash Personalization.NoteCommitment (commitment_bits assetB)) :=
  distinct_metadata_distinct_preimage assetA assetB (by decide) (by decide)
    (Or.inr (Or.inr (by decide)))

/-- C10.  The blinded commitment point is constructed inside the model of
`jubjub::SubgroupPoint` — a Pedersen hash output plus a scalar multiple of a
subgroup generator, combined by the subgroup's own operations — so it lies in
the prime-order subgroup; under the defining property of that subgroup (every
member is killed by the subgroup order `qJ`), the point multiplied by `qJ` is
the identity, and `commitment_point` is therefore the `u`-coordinate of a
prime-order-subgroup element. -/
theorem commitment_full_point_in_prime_order_subgroup {J : Type} [AddCommGroup J]
    (S : AddSubgroup J) (pedersen_hash : Personalization → List Bool → S) (gen : S)
    (hq : ∀ P ∈ S, qJ • P = (0 : J)) (note : CreateAssetNote) :
    ((CreateAssetNote.commitment_full_point S pedersen_hash gen note : S) : J) ∈ S ∧
    qJ • ((CreateAssetNote.commitment_full_point S pedersen_hash gen note : S) : J) = 0 :=
  ⟨SetLike.coe_mem _, hq _ (SetLike.coe_mem _)⟩

/-- Witness for `commitment_full_point_in_prime_order_subgroup`: the additive
group of `Fr` with the full subgroup, in which every element is killed by
`qJ`. -/
theorem commitment_full_point_in_prime_order_subgroup_witness :
    ((CreateAssetNote.commitment_full_point Sfull ph0 gen0 note0 : Sfull) : Fr) ∈ Sfull ∧
    qJ • ((CreateAssetNote.commitment_full_point Sfull ph0 gen0 note0 : Sfull) : Fr) = 0 :=
  commitment_full_point_in_prime_order_subgroup Sfull ph0 gen0
    (fun P _ => by rw [nsmul_eq_mul, ZMod.natCast_self, zero_mul]) note0
